import Mathlib

/-!
Verification development for the letter generator in generate_letter.py.

The script lays out a one-template business letter with reportlab: a
HeaderFooter flowable paints the page chrome (sidebar, logo, company name,
footer rule, three footer columns) and generate_document assembles the body
story (date, recipient lines, title, salutation, body paragraphs, closing,
signature) and hands it to SimpleDocTemplate.build.

The embedding below follows the source directly: lengths are exact rationals
in PostScript points, the content dictionary is a record of optional fields,
Python iteration over a field value is a fallible function, the draw method
is a list of drawing operations, and the pagination engine is a sequential
placement of measured blocks into pages of a fixed content height.
-/

/-- One millimetre in points, as reportlab defines it: 72 / 25.4. -/
def mm : ℚ := 72 / 25.4

/-- One inch in points. -/
def inch : ℚ := 72

/-- A4 page width in points (210 mm). -/
def A4width : ℚ := 210 * mm

/-- A4 page height in points (297 mm). -/
def A4height : ℚ := 297 * mm

/-- Top margin passed to SimpleDocTemplate: 1.5 inch. -/
def topMargin : ℚ := 1.5 * inch

/-- Bottom margin passed to SimpleDocTemplate: 1.25 inch. -/
def bottomMargin : ℚ := 1.25 * inch

/-- Left margin passed to SimpleDocTemplate: 20 mm. -/
def leftMargin : ℚ := 20 * mm

/-- Right margin passed to SimpleDocTemplate: 20 mm. -/
def rightMargin : ℚ := 20 * mm

/-- Vertical space available to the body flow on one page. -/
def contentHeight : ℚ := A4height - topMargin - bottomMargin

/-- Horizontal space between the left and right content margins. -/
def usableWidth : ℚ := A4width - leftMargin - rightMargin

/-- Python exceptions that the modelled code can raise. -/
inductive PyErr where
  | typeError
  | ttfError

/-- A Python value stored in a field of the content dictionary that the
code iterates over: a list of strings, a single string, or a number. -/
inductive PyVal where
  | str (s : String)
  | num (n : Int)
  | list (xs : List String)

/-- The content dictionary passed to generate_document. Scalar fields are
taken as strings (the script passes them to Paragraph as text); the three
fields the script iterates over can hold an arbitrary value. A missing key
is None here, and dict.get supplies the defaults used in the script. -/
structure Content where
  date : Option String := none
  recipient : Option PyVal := none
  title : Option String := none
  salutation : Option String := none
  body : Option PyVal := none
  closing : Option String := none
  signature : Option PyVal := none

/-- Python iteration over a value, as in the for loops of generate_document:
a list yields its items, a string yields its characters as one-character
strings, and a number raises TypeError because it is not iterable. -/
def pyIter : PyVal → Except PyErr (List String)
  | PyVal.list xs => Except.ok xs
  | PyVal.str s => Except.ok (s.toList.map (fun ch => String.mk [ch]))
  | PyVal.num _ => Except.error PyErr.typeError

/-- content.get(key, []) followed by iteration: an absent field iterates as
the empty default list. -/
def getSeq : Option PyVal → Except PyErr (List String)
  | none => Except.ok []
  | some v => pyIter v

/-- A flowable appended to the story: the HeaderFooter flowable, a styled
paragraph, or a spacer of a given height. -/
inductive Block where
  | headerFooter
  | para (text : String) (style : String)
  | spacer (h : ℚ)

/-- The story list built by generate_document, in the exact order of the
appends in the source. The recipient loop runs before the body loop, which
runs before the signature loop, so a non-iterable field raises in that
order, exactly as in Python. -/
def buildStory (c : Content) : Except PyErr (List Block) :=
  match getSeq c.recipient with
  | Except.error e => Except.error e
  | Except.ok recl =>
    match getSeq c.body with
    | Except.error e => Except.error e
    | Except.ok bodyl =>
      match getSeq c.signature with
      | Except.error e => Except.error e
      | Except.ok sigl =>
        Except.ok
          ([Block.headerFooter,
            Block.para (c.date.getD "") "Date",
            Block.spacer (0.25 * inch)]
           ++ recl.map (fun line => Block.para line "Recipient")
           ++ [Block.spacer (0.25 * inch),
               Block.para (c.title.getD "") "Heading1",
               Block.spacer (0.1 * inch),
               Block.para (c.salutation.getD "") "Normal",
               Block.spacer (0.1 * inch)]
           ++ bodyl.map (fun p => Block.para p "Body")
           ++ [Block.para (c.closing.getD "") "Normal",
               Block.spacer (0.25 * inch)]
           ++ sigl.map (fun line => Block.para line "Normal"))

/-- What doc.build reports: the script prints a success line on a normal
build and prints an error line when doc.build raises. -/
inductive Outcome where
  | success (msg : String)
  | failure (msg : String)

/-- generate_document: build the story, then build the PDF inside the only
try block of the function. writeOk models whether doc.build succeeds; a
failure is caught there and reported as a printed message, while an
exception raised while building the story propagates to the caller. -/
def generate_document (filename : String) (content : Content) (writeOk : Bool) :
    Except PyErr Outcome :=
  match buildStory content with
  | Except.error e => Except.error e
  | Except.ok _story =>
    if writeOk then Except.ok (Outcome.success ("Successfully generated " ++ filename))
    else Except.ok (Outcome.failure "Error generating PDF")

/-- One drawing operation performed by HeaderFooter.draw, with positions and
sizes in points. A paraCol operation records a footer column drawn with
drawOn after wrapOn: its x, its y, the wrap width passed to wrapOn, and the
bold label of its static text. -/
inductive DrawOp where
  | rect (x y w h : ℚ)
  | image (x y w h : ℚ)
  | face (fontName : String) (size : ℚ)
  | text (x y : ℚ) (s : String)
  | line (x1 y1 x2 y2 : ℚ)
  | paraCol (x y wrapW : ℚ) (label : String)

/-- The logo draw width stored in the instance: 1.25 inch when the logo file
was found, otherwise the zero set in the constructor. -/
def logoDrawW (logo : Option (ℚ × ℚ)) : ℚ :=
  match logo with
  | some _ => 1.25 * inch
  | none => 0

/-- The logo draw height stored in the instance: the draw width times the
native aspect ratio when the logo file was found, otherwise zero. -/
def logoDrawH (logo : Option (ℚ × ℚ)) : ℚ :=
  match logo with
  | some (w, h) => 1.25 * inch * (h / w)
  | none => 0

/-- The drawImage operation for the logo, emitted only when the logo file
was found; its native size in pixels is the pair (w, h). -/
def logoOps (logo : Option (ℚ × ℚ)) : List DrawOp :=
  match logo with
  | some (w, h) =>
    [DrawOp.image (20 * mm) (A4height - 1 * inch - 1.25 * inch * (h / w))
      (1.25 * inch) (1.25 * inch * (h / w))]
  | none => []

/-- The y coordinate of the footer rule: one inch above the page bottom. -/
def footer_y : ℚ := 1 * inch

/-- The operations of HeaderFooter.draw, in source order: the sidebar
rectangle, the optional logo image, the font selection and company name, the
footer rule, and the three footer columns. fontName is the resolved
FONT_REGULAR_NAME. hF models Paragraph.wrapOn for the three static footer
texts: the wrapped height of column i at a given available width. wrapOn
also returns the available width itself as the consumed width, which the
third column uses for right alignment. -/
def headerFooterOps (fontName : String) (logo : Option (ℚ × ℚ))
    (hF : Nat → ℚ → ℚ) : List DrawOp :=
  DrawOp.rect 0 0 (10 * mm) A4height ::
  (logoOps logo ++
   [DrawOp.face fontName 9,
    DrawOp.text (20 * mm + logoDrawW logo + 5 * mm)
      (A4height - 1 * inch - logoDrawH logo / 2 + 5) "ACCESS DISCREETKIT LTD",
    DrawOp.line (20 * mm) footer_y (A4width - 20 * mm) footer_y,
    DrawOp.paraCol (20 * mm) (footer_y - hF 0 (A4width / 2 - 25 * mm) - 3 * mm)
      (A4width / 2 - 25 * mm) "Address",
    DrawOp.paraCol (A4width / 2) (footer_y - hF 1 (A4width / 3) - 3 * mm)
      (A4width / 3) "Contact",
    DrawOp.paraCol (A4width - 20 * mm - A4width / 3)
      (footer_y - hF 2 (A4width / 3) - 3 * mm) (A4width / 3) "Follow Us"])

/-- The horizontal rules among a list of operations. -/
def lineOps (ops : List DrawOp) : List (ℚ × ℚ × ℚ × ℚ) :=
  ops.filterMap (fun op =>
    match op with
    | DrawOp.line x1 y1 x2 y2 => some (x1, y1, x2, y2)
    | _ => none)

/-- The image operations among a list of operations. -/
def imageOps (ops : List DrawOp) : List (ℚ × ℚ × ℚ × ℚ) :=
  ops.filterMap (fun op =>
    match op with
    | DrawOp.image x y w h => some (x, y, w, h)
    | _ => none)

/-- The drawString operations among a list of operations. -/
def textOps (ops : List DrawOp) : List (ℚ × ℚ × String) :=
  ops.filterMap (fun op =>
    match op with
    | DrawOp.text x y s => some (x, y, s)
    | _ => none)

/-- The footer column operations among a list of operations. -/
def colOps (ops : List DrawOp) : List (ℚ × ℚ × ℚ × String) :=
  ops.filterMap (fun op =>
    match op with
    | DrawOp.paraCol x y w label => some (x, y, w, label)
    | _ => none)

/-- The wrap widths handed to wrapOn for the three footer columns. -/
def colWrapWidths (ops : List DrawOp) : List ℚ :=
  ops.filterMap (fun op =>
    match op with
    | DrawOp.paraCol _ _ w _ => some w
    | _ => none)

/-- The vertical space a block takes in the flow. HeaderFooter.wrap returns
a zero size, a spacer takes its height, and a paragraph takes the height the
engine measures for its text and style, abstracted as paraH. -/
def blockHeight (paraH : String → String → ℚ) : Block → ℚ
  | Block.headerFooter => 0
  | Block.spacer h => h
  | Block.para t st => paraH t st

/-- Sequential placement of measured blocks into pages, as the platypus
frame does: a block stays on the current page when it fits in the remaining
height or when the page is still empty, and otherwise opens the next page.
Pages are numbered from 1 and a flowable draws on the page it is placed
on. -/
def placeAux (hmax : ℚ) (paraH : String → String → ℚ) :
    List Block → Nat → ℚ → List (Block × Nat)
  | [], _, _ => []
  | b :: bs, page, used =>
    if used + blockHeight paraH b ≤ hmax ∨ used = 0 then
      (b, page) :: placeAux hmax paraH bs page (used + blockHeight paraH b)
    else
      (b, page + 1) :: placeAux hmax paraH bs (page + 1) (blockHeight paraH b)

/-- Placement of a whole story, starting on page 1 with an empty page. -/
def placeStory (hmax : ℚ) (paraH : String → String → ℚ) (story : List Block) :
    List (Block × Nat) :=
  placeAux hmax paraH story 1 0

/-- Number of pages of the rendered document. -/
def numPages (hmax : ℚ) (paraH : String → String → ℚ) (story : List Block) : Nat :=
  (placeStory hmax paraH story).foldr (fun bp acc => Nat.max bp.2 acc) 1

/-- The pages on which a HeaderFooter flowable is placed, hence the only
pages on which the chrome is drawn. -/
def chromePages (hmax : ℚ) (paraH : String → String → ℚ) (story : List Block) :
    List Nat :=
  (placeStory hmax paraH story).filterMap (fun bp =>
    match bp with
    | (Block.headerFooter, p) => some p
    | _ => none)

/-- State of the two font asset files on disk. -/
structure FontAssets where
  regularExists : Bool
  boldExists : Bool
  regularReadable : Bool
  boldReadable : Bool

/-- The module level font setup: when either font file is missing the script
only prints a message and registers nothing, so both names resolve to the
built-in fallbacks; when both files exist the script registers them, and
TTFont raises on an unreadable file, which nothing catches; when both
registrations succeed the Satoshi names are used. Returns the resolved
(FONT_REGULAR_NAME, FONT_BOLD_NAME) pair. -/
def moduleFontSetup (fa : FontAssets) : Except PyErr (String × String) :=
  if !fa.regularExists || !fa.boldExists then
    Except.ok ("Helvetica", "Helvetica-Bold")
  else if !fa.regularReadable then Except.error PyErr.ttfError
  else if !fa.boldReadable then Except.error PyErr.ttfError
  else Except.ok ("Satoshi", "Satoshi-Bold")

/-- Everything outside the content record that the rendering depends on:
the resolved regular font face, the logo state with its native size, the
wrap measure for the footer texts, the paragraph measure for body text, and
whether the output destination accepts the write. -/
structure Assets where
  fontName : String
  logo : Option (ℚ × ℚ)
  wrapH : Nat → ℚ → ℚ
  paraH : String → String → ℚ
  writeOk : Bool

/-- The observable result of one generation run: the chrome operations, the
page placement of the story, and the reported outcome. -/
structure GenOutput where
  chrome : List DrawOp
  placement : List (Block × Nat)
  outcome : Outcome

/-- The whole pipeline of generate_document as a function of its inputs. -/
def generateOutput (filename : String) (c : Content) (a : Assets) :
    Except PyErr GenOutput :=
  match buildStory c with
  | Except.error e => Except.error e
  | Except.ok story =>
    Except.ok
      { chrome := headerFooterOps a.fontName a.logo a.wrapH
        placement := placeStory contentHeight a.paraH story
        outcome :=
          if a.writeOk then Outcome.success ("Successfully generated " ++ filename)
          else Outcome.failure "Error generating PDF" }

/-- A demonstration wrap measure for witnesses: every footer column wraps to
a height of 30 points. -/
def hFdemo : Nat → ℚ → ℚ := fun _ _ => 30

/-- A demonstration paragraph measure for witnesses: every paragraph
measures 60 points tall. -/
def paraHdemo : String → String → ℚ := fun _ _ => 60

/-- Whether a block is a paragraph carrying the given style name. -/
def isStylePara (st : String) : Block → Bool
  | Block.para _ s2 => s2 == st
  | _ => false

/-- Number of paragraphs of a given style in a story. -/
def countStyle (st : String) (s : List Block) : Nat :=
  (s.filter (isStylePara st)).length

/-- The story built from the all-defaults content record. -/
def emptyStory : List Block :=
  [Block.headerFooter,
   Block.para "" "Date", Block.spacer (0.25 * inch),
   Block.spacer (0.25 * inch),
   Block.para "" "Heading1", Block.spacer (0.1 * inch),
   Block.para "" "Normal", Block.spacer (0.1 * inch),
   Block.para "" "Normal", Block.spacer (0.25 * inch)]

theorem countStyle_append (st : String) (l1 l2 : List Block) :
    countStyle st (l1 ++ l2) = countStyle st l1 + countStyle st l2 := by
  simp [countStyle, List.filter_append]

theorem countStyle_map_ne (st st2 : String) (hne : (st2 == st) = false)
    (ls : List String) :
    countStyle st (ls.map (fun t => Block.para t st2)) = 0 := by
  induction ls with
  | nil => rfl
  | cons a l ih =>
    simp only [List.map_cons, countStyle, List.filter_cons, isStylePara, hne,
      List.length] at ih ⊢
    simpa using ih

/-- Claim C2 (amended): an absent recipient field renders zero recipient
lines and does not raise, but a non-list, non-iterable recipient value such
as a number makes generate_document raise a TypeError instead of
completing. -/
theorem recipient_nonlist_amended :
    (∀ (c : Content) (s : List Block), c.recipient = none →
        buildStory c = Except.ok s → countStyle "Recipient" s = 0) ∧
    (∀ (fn : String) (c : Content) (n : Int),
        c.recipient = some (PyVal.num n) →
        generate_document fn c true = Except.error PyErr.typeError) := by
  constructor
  · intro c s hrec hs
    unfold buildStory at hs
    rw [hrec] at hs
    cases hb : getSeq c.body with
    | error e => rw [hb] at hs; simp [getSeq] at hs
    | ok bodyl =>
      cases hg : getSeq c.signature with
      | error e => rw [hb, hg] at hs; simp [getSeq] at hs
      | ok sigl =>
        rw [hb, hg] at hs
        simp only [getSeq, Except.ok.injEq] at hs
        subst hs
        simp [countStyle_append, countStyle_map_ne, countStyle, isStylePara]
  · intro fn c n hrec
    unfold generate_document buildStory
    rw [hrec]
    rfl

/-- Claim C2 witness: the all-defaults content renders zero recipient
lines, and recipient set to the number 5 raises. -/
theorem recipient_nonlist_amended_witness :
    countStyle "Recipient" emptyStory = 0 ∧
    generate_document "strategic_proposal.pdf"
        { recipient := some (PyVal.num 5) } true = Except.error PyErr.typeError :=
  ⟨recipient_nonlist_amended.1 {} emptyStory rfl rfl,
   recipient_nonlist_amended.2 "strategic_proposal.pdf"
     { recipient := some (PyVal.num 5) } 5 rfl⟩

/-- Claim C2 counterexample: with the recipient field set to the number 5,
the for loop over it raises a TypeError outside of any try block, so
generate_document does not complete. -/
theorem recipient_number_raises :
    generate_document "strategic_proposal.pdf"
        { recipient := some (PyVal.num 5) } true = Except.error PyErr.typeError := rfl

/-- Claim C5 (amended): when either font file is absent, the font table is
built without raising and both faces resolve to the built-in Helvetica
fallbacks; an existing but unreadable font file instead raises during
registration. -/
theorem font_fallback_on_missing (fa : FontAssets)
    (h : fa.regularExists = false ∨ fa.boldExists = false) :
    moduleFontSetup fa = Except.ok ("Helvetica", "Helvetica-Bold") := by
  rcases h with h | h <;> simp [moduleFontSetup, h]

/-- Claim C5 witness: with the regular font file missing, setup succeeds
with the fallback faces. -/
theorem font_fallback_on_missing_witness :
    (FontAssets.mk false true true true).regularExists = false ∧
    moduleFontSetup (FontAssets.mk false true true true)
      = Except.ok ("Helvetica", "Helvetica-Bold") :=
  ⟨rfl, font_fallback_on_missing (FontAssets.mk false true true true) (Or.inl rfl)⟩

/-- Claim C5 counterexample: a font file that exists but cannot be parsed
makes TTFont raise at registration time, and nothing catches it, so the
font table construction crashes rather than falling back. -/
theorem font_unreadable_crashes :
    moduleFontSetup (FontAssets.mk true true false true)
      = Except.error PyErr.ttfError := rfl

/-- Claim C8: once the story is built, a doc.build failure such as an
unwritable output path is caught by the try block and reported as a printed
failure message; the call returns normally instead of propagating the
exception to the caller. -/
theorem write_failure_reported (fn : String) (c : Content) (s : List Block)
    (h : buildStory c = Except.ok s) :
    generate_document fn c false
      = Except.ok (Outcome.failure "Error generating PDF") := by
  unfold generate_document
  rw [h]
  rfl

/-- Claim C8 witness: the all-defaults content with a failing write is
reported as a failure outcome. -/
theorem write_failure_reported_witness :
    buildStory {} = Except.ok emptyStory ∧
    generate_document "strategic_proposal.pdf" {} false
      = Except.ok (Outcome.failure "Error generating PDF") :=
  ⟨rfl, write_failure_reported "strategic_proposal.pdf" {} emptyStory rfl⟩

/-- Claim C9: generation is deterministic — two runs with equal content and
equal assets produce equal outputs, chrome, placement and outcome included. -/
theorem generation_deterministic (fn : String) (c1 c2 : Content) (a1 a2 : Assets)
    (hc : c1 = c2) (ha : a1 = a2) :
    generateOutput fn c1 a1 = generateOutput fn c2 a2 := by
  rw [hc, ha]

/-- Claim C9 witness: two identical runs on the all-defaults content agree. -/
theorem generation_deterministic_witness :
    generateOutput "strategic_proposal.pdf" {}
        (Assets.mk "Helvetica" none hFdemo paraHdemo true)
      = generateOutput "strategic_proposal.pdf" {}
        (Assets.mk "Helvetica" none hFdemo paraHdemo true) :=
  generation_deterministic "strategic_proposal.pdf" {} {}
    (Assets.mk "Helvetica" none hFdemo paraHdemo true)
    (Assets.mk "Helvetica" none hFdemo paraHdemo true) rfl rfl

/-- Claim C10: the sidebar rectangle spans x from 0 to 10 mm over the full
page height, 10 mm is strictly less than the 20 mm left margin, and every x
at or beyond the left content margin lies strictly to the right of the
sidebar, so no body flow block can horizontally overlap it. -/
theorem sidebar_inside_left_margin (fontName : String) (logo : Option (ℚ × ℚ))
    (hF : Nat → ℚ → ℚ) :
    DrawOp.rect 0 0 (10 * mm) A4height ∈ headerFooterOps fontName logo hF ∧
    10 * mm < leftMargin ∧
    ∀ x : ℚ, leftMargin ≤ x → 10 * mm < x := by
  refine ⟨List.mem_cons_self _ _, ?_, ?_⟩
  · norm_num [mm, leftMargin]
  · intro x hx
    have h10 : (10 : ℚ) * mm < leftMargin := by norm_num [mm, leftMargin]
    linarith

/-- Claim C10 witness: at the left margin itself the sidebar is already
strictly passed. -/
theorem sidebar_inside_left_margin_witness :
    leftMargin ≤ leftMargin ∧ 10 * mm < leftMargin :=
  ⟨le_refl leftMargin,
   (sidebar_inside_left_margin "Helvetica" none hFdemo).2.2 leftMargin
     (le_refl leftMargin)⟩

/-- Claim C3 (amended): exactly three footer columns are drawn; the first
wraps at pageWidth / 2 - 25 mm and the second and third at pageWidth / 3
of the full page width, and every column is drawn at a y position computed
from its own wrapped height, measured at its own wrap width before the
draw. -/
theorem footer_columns_layout (fontName : String) (logo : Option (ℚ × ℚ))
    (hF : Nat → ℚ → ℚ) :
    colOps (headerFooterOps fontName logo hF) =
      [(20 * mm, footer_y - hF 0 (A4width / 2 - 25 * mm) - 3 * mm,
        A4width / 2 - 25 * mm, "Address"),
       (A4width / 2, footer_y - hF 1 (A4width / 3) - 3 * mm, A4width / 3,
        "Contact"),
       (A4width - 20 * mm - A4width / 3, footer_y - hF 2 (A4width / 3) - 3 * mm,
        A4width / 3, "Follow Us")] := by
  rcases logo with _ | ⟨w, h⟩ <;> rfl

/-- Claim C3 counterexample: the first wrap width differs from the other
two, and none of the three equals a third of the usable content width, so
the columns are not allotted usableWidth / 3 each. -/
theorem footer_columns_unequal :
    colWrapWidths (headerFooterOps "Helvetica" none hFdemo) =
      [A4width / 2 - 25 * mm, A4width / 3, A4width / 3] ∧
    A4width / 2 - 25 * mm ≠ A4width / 3 ∧
    A4width / 2 - 25 * mm ≠ usableWidth / 3 ∧
    A4width / 3 ≠ usableWidth / 3 := by
  refine ⟨rfl, ?_, ?_, ?_⟩ <;>
    norm_num [A4width, usableWidth, leftMargin, rightMargin, mm]

/-- Claim C4 (amended): the decorator draws exactly one horizontal rule, at
the footer top boundary one inch above the page bottom, spanning from the
left content margin to the right content margin; no rule is drawn below the
header band. -/
theorem single_rule_at_footer (fontName : String) (logo : Option (ℚ × ℚ))
    (hF : Nat → ℚ → ℚ) :
    lineOps (headerFooterOps fontName logo hF) =
      [(20 * mm, footer_y, A4width - 20 * mm, footer_y)] := by
  rcases logo with _ | ⟨w, h⟩ <;> rfl

/-- Claim C4 counterexample: only one rule is drawn, its y position is the
one inch footer boundary, and that position is far below the bottom of the
header band, so there is no second, header-side separator rule. -/
theorem no_header_rule :
    (lineOps (headerFooterOps "Helvetica" none hFdemo)).length = 1 ∧
    lineOps (headerFooterOps "Helvetica" none hFdemo) =
      [(20 * mm, footer_y, A4width - 20 * mm, footer_y)] ∧
    footer_y < A4height - topMargin := by
  refine ⟨rfl, rfl, ?_⟩
  norm_num [footer_y, inch, A4height, topMargin, mm]

/-- Claim C6: with a logo of positive native width, the image is drawn at
the fixed 1.25 inch target width and at height 1.25 inch times native
height over native width; without a logo file no image operation is drawn,
and the stored draw width and height stay at the zero set in the
constructor, which the company name position then uses. -/
theorem logo_aspect_and_absence (fontName : String) (w h : ℚ) (hw : 0 < w)
    (hF : Nat → ℚ → ℚ) :
    imageOps (headerFooterOps fontName (some (w, h)) hF) =
      [(20 * mm, A4height - 1 * inch - 1.25 * inch * h / w, 1.25 * inch,
        1.25 * inch * h / w)] ∧
    imageOps (headerFooterOps fontName none hF) = [] ∧
    logoDrawW none = 0 ∧ logoDrawH none = 0 ∧
    textOps (headerFooterOps fontName none hF) =
      [(20 * mm + logoDrawW none + 5 * mm,
        A4height - 1 * inch - logoDrawH none / 2 + 5, "ACCESS DISCREETKIT LTD")] := by
  refine ⟨?_, rfl, rfl, rfl, rfl⟩
  simp [headerFooterOps, imageOps, logoOps, List.filterMap, mul_div_assoc]

/-- Claim C6 witness: a logo of native size 4 by 3 is drawn 90 points wide
and 67.5 points tall. -/
theorem logo_aspect_and_absence_witness :
    (0 : ℚ) < 4 ∧
    imageOps (headerFooterOps "Helvetica" (some (4, 3)) hFdemo) =
      [(20 * mm, A4height - 1 * inch - 1.25 * inch * 3 / 4, 1.25 * inch,
        1.25 * inch * 3 / 4)] :=
  ⟨by norm_num,
   (logo_aspect_and_absence "Helvetica" 4 3 (by norm_num) hFdemo).1⟩

/-- Claim C7 (amended): with the logo absent the stored logo width is zero,
but the company name is still drawn with a constant 5 mm gap after the 20 mm
left margin, so its x position is a nonzero offset from the margin. -/
theorem company_name_gap (fontName : String) (hF : Nat → ℚ → ℚ) :
    textOps (headerFooterOps fontName none hF) =
      [(leftMargin + 0 + 5 * mm, A4height - 1 * inch - 0 / 2 + 5,
        "ACCESS DISCREETKIT LTD")] ∧
    leftMargin + 0 + 5 * mm ≠ leftMargin := by
  constructor
  · rfl
  · norm_num [mm, leftMargin]

/-- Claim C7 counterexample: with the logo absent the company name x
position equals 25 mm, which differs from the 20 mm left content margin. -/
theorem company_name_not_at_margin :
    textOps (headerFooterOps "Helvetica" none hFdemo) =
      [(25 * mm, A4height - 1 * inch + 5, "ACCESS DISCREETKIT LTD")] ∧
    (25 * mm : ℚ) ≠ leftMargin := by
  constructor
  · simp only [headerFooterOps, textOps, logoOps, logoDrawW, logoDrawH,
      List.filterMap]
    norm_num [mm]
  · norm_num [mm, leftMargin]

/-- A content record whose body is long enough to overflow one page under
the demonstration paragraph measure. -/
def longContent : Content :=
  { body := some (PyVal.list
      ["b1", "b2", "b3", "b4", "b5", "b6", "b7", "b8", "b9", "b10"]) }

/-- The story generate_document builds from longContent. -/
def longStory : List Block :=
  [Block.headerFooter,
   Block.para "" "Date", Block.spacer (0.25 * inch),
   Block.spacer (0.25 * inch),
   Block.para "" "Heading1", Block.spacer (0.1 * inch),
   Block.para "" "Normal", Block.spacer (0.1 * inch),
   Block.para "b1" "Body", Block.para "b2" "Body", Block.para "b3" "Body",
   Block.para "b4" "Body", Block.para "b5" "Body", Block.para "b6" "Body",
   Block.para "b7" "Body", Block.para "b8" "Body", Block.para "b9" "Body",
   Block.para "b10" "Body",
   Block.para "" "Normal", Block.spacer (0.25 * inch)]

theorem contentHeight_val : contentHeight = 81774 / 127 := by
  norm_num [contentHeight, A4height, topMargin, bottomMargin, inch, mm]

theorem placeStory_longStory :
    placeStory contentHeight paraHdemo longStory =
      [(Block.headerFooter, 1),
       (Block.para "" "Date", 1), (Block.spacer (0.25 * inch), 1),
       (Block.spacer (0.25 * inch), 1),
       (Block.para "" "Heading1", 1), (Block.spacer (0.1 * inch), 1),
       (Block.para "" "Normal", 1), (Block.spacer (0.1 * inch), 1),
       (Block.para "b1" "Body", 1), (Block.para "b2" "Body", 1),
       (Block.para "b3" "Body", 1), (Block.para "b4" "Body", 1),
       (Block.para "b5" "Body", 1), (Block.para "b6" "Body", 1),
       (Block.para "b7" "Body", 2), (Block.para "b8" "Body", 2),
       (Block.para "b9" "Body", 2), (Block.para "b10" "Body", 2),
       (Block.para "" "Normal", 2), (Block.spacer (0.25 * inch), 2)] := by
  norm_num [longStory, placeStory, placeAux, blockHeight, paraHdemo,
    contentHeight_val, inch]

/-- Claim C1: a body long enough to overflow one page does yield a document
of more than one page, but the HeaderFooter flowable is placed exactly once,
at the start of the story, so the chrome is drawn only on page 1 and the
later pages carry no chrome at all. -/
theorem chrome_only_on_first_page :
    buildStory longContent = Except.ok longStory ∧
    numPages contentHeight paraHdemo longStory = 2 ∧
    chromePages contentHeight paraHdemo longStory = [1] := by
  refine ⟨rfl, ?_, ?_⟩ <;>
    simp [numPages, chromePages, placeStory_longStory, List.filterMap,
      List.foldr]
